import Mathlib

/-!
Shallow embedding of the ThinkPad embedded-controller access driver
(`thinkpad_ec.c`): the row request/read protocol state machine, the
single-slot prefetch cache, and the public row API, modelled over an
abstract register backend so that theorems can quantify over EC behaviors.
-/

namespace ThinkpadEc

/-! ### Constants from the source -/

def EINVAL : Int := 22
def EBUSY : Int := 16
def EIO : Int := 5
def ENODATA : Int := 61

def TPC_STR3_PORT : Nat := 0x1604
def TPC_TWR0_PORT : Nat := 0x1610
def TPC_TWR15_PORT : Nat := 0x161F

def H8S_STR3_IBF3B : Nat := 0x80
def H8S_STR3_OBF3B : Nat := 0x40
def H8S_STR3_MWMF : Nat := 0x20
def H8S_STR3_SWMF : Nat := 0x10
def H8S_STR3_MASK : Nat := 0xF0

def TPC_READ_RETRIES : Nat := 150
def TPC_READ_NDELAY : Nat := 500
def TPC_REQUEST_RETRIES : Nat := 100
def TPC_REQUEST_NDELAY : Nat := 10

def HZ : Nat := 250
def TPC_PREFETCH_TIMEOUT : Nat := HZ / 10

def INITIAL_JIFFIES : Nat := 0
def TPC_PREFETCH_NONE : Nat := INITIAL_JIFFIES
def TPC_PREFETCH_JUNK : Nat := INITIAL_JIFFIES + 1

def TP_CONTROLLER_ROW_LEN : Nat := 16

/-! ### Data model -/

/-- A 16-byte row plus a 16-bit mask of meaningful slots
(`struct thinkpad_ec_row`).  `val i` is the byte in slot `i`. -/
structure thinkpad_ec_row where
  mask : Nat
  val : Nat → Nat

/-- One register access (or busy-wait delay) performed by the driver,
recorded so that theorems can speak about the exact I/O sequence. -/
inductive Event where
  | readReg (port : Nat) (value : Nat)
  | writeReg (port : Nat) (value : Nat)
  | delay (ns : Nat)
deriving DecidableEq

/-- An abstract EC register backend: a deterministic machine with state
type `σ` that answers byte reads and absorbs byte writes. -/
structure EcBehavior (σ : Type) where
  readPort : σ → Nat → Nat × σ
  writePort : σ → Nat → Nat → σ

/-- Result of the request sub-protocol: return code, new EC state, and the
register accesses performed. -/
structure ReqResult (σ : Type) where
  ret : Int
  ec : σ
  events : List Event
deriving DecidableEq

/-- Result of the read sub-protocol: return code, (possibly updated)
response row, new EC state, and the register accesses performed. -/
structure ReadResult (σ : Type) where
  ret : Int
  data : thinkpad_ec_row
  ec : σ
  events : List Event

/-! ### Request sub-protocol (`thinkpad_ec_request_row`) -/

/-- The post-terminator status poll loop of `thinkpad_ec_request_row`
(source lines 178-192): wait until the EC raises SWMF, tolerating the
normal-progress patterns `IBF3B|MWMF` and `0x00`, with a hard iteration
cap.  Falling off the loop returns `- EIO`. -/
def requestPoll {σ : Type} (B : EcBehavior σ) : Nat → σ → ReqResult σ
  | 0, e => ⟨- EIO, e, []⟩
  | n+1, e =>
    let rv := B.readPort e TPC_STR3_PORT
    let str3 := (rv.1 &&& 0xFF) &&& H8S_STR3_MASK
    let ev := Event.readReg TPC_STR3_PORT (rv.1 &&& 0xFF)
    if str3 &&& H8S_STR3_SWMF ≠ 0 then ⟨0, rv.2, [ev]⟩
    else if str3 = (H8S_STR3_IBF3B ||| H8S_STR3_MWMF) ∨ str3 = 0 then
      let r := requestPoll B n rv.2
      ⟨r.ret, r.ec, ev :: Event.delay TPC_REQUEST_NDELAY :: r.events⟩
    else ⟨- EIO, rv.2, [ev]⟩

/-- The TWR1..TWR14 write loop of `thinkpad_ec_request_row`: write every
mask-selected slot of `args` in increasing slot order. -/
def sendArgs {σ : Type} (B : EcBehavior σ) (args : thinkpad_ec_row) :
    List Nat → σ → σ × List Event
  | [], e => (e, [])
  | i :: is, e =>
    if (args.mask >>> i) &&& 1 = 1 then
      let e1 := B.writePort e (TPC_TWR0_PORT + i) (args.val i &&& 0xFF)
      let r := sendArgs B args is e1
      (r.1, Event.writeReg (TPC_TWR0_PORT + i) (args.val i &&& 0xFF) :: r.2)
    else sendArgs B args is e

/-- `thinkpad_ec_request_row`: tell the EC to prepare a row.  Checks the
mask invariant, classifies the initial status, writes arg0, checks for
acceptance, writes the selected middle slots and the terminator, then
polls for the EC's reply to start. -/
def thinkpad_ec_request_row {σ : Type} (B : EcBehavior σ)
    (args : thinkpad_ec_row) (e : σ) : ReqResult σ :=
  if args.mask &&& 0x0001 = 0 then ⟨-EINVAL, e, []⟩
  else
    let rv := B.readPort e TPC_STR3_PORT
    let b0 := rv.1 &&& 0xFF
    let str3 := b0 &&& H8S_STR3_MASK
    let ev0 := Event.readReg TPC_STR3_PORT b0
    if str3 &&& H8S_STR3_OBF3B ≠ 0 then
      let rvF := B.readPort rv.2 TPC_TWR15_PORT
      ⟨-EBUSY, rvF.2, [ev0, Event.readReg TPC_TWR15_PORT (rvF.1 &&& 0xFF)]⟩
    else if str3 = H8S_STR3_SWMF then ⟨-EBUSY, rv.2, [ev0]⟩
    else if str3 ≠ 0 then ⟨- EIO, rv.2, [ev0]⟩
    else
      let e1 := B.writePort rv.2 TPC_TWR0_PORT (args.val 0 &&& 0xFF)
      let ev1 := Event.writeReg TPC_TWR0_PORT (args.val 0 &&& 0xFF)
      let rv2 := B.readPort e1 TPC_STR3_PORT
      let b2 := rv2.1 &&& 0xFF
      let str3b := b2 &&& H8S_STR3_MASK
      let ev2 := Event.readReg TPC_STR3_PORT b2
      if str3b ≠ H8S_STR3_MWMF then ⟨- EIO, rv2.2, [ev0, ev1, ev2]⟩
      else
        let sr := sendArgs B args (List.range' 1 14) rv2.2
        let tv := if args.mask &&& 0x8000 ≠ 0 then args.val 0xF &&& 0xFF else 0x01
        let e2 := B.writePort sr.1 TPC_TWR15_PORT tv
        let pr := requestPoll B TPC_REQUEST_RETRIES e2
        ⟨pr.ret, pr.ec,
          ev0 :: ev1 :: ev2 :: (sr.2 ++ Event.writeReg TPC_TWR15_PORT tv :: pr.events)⟩

/-! ### Read sub-protocol (`thinkpad_ec_read_data`) -/

/-- The TWR1..TWR14 read loop of `thinkpad_ec_read_data`: read every
mask-selected slot into the row, in increasing slot order. -/
def readSlots {σ : Type} (B : EcBehavior σ) :
    List Nat → σ → thinkpad_ec_row → thinkpad_ec_row × σ × List Event
  | [], e, d => (d, e, [])
  | i :: is, e, d =>
    if (d.mask >>> i) &&& 1 = 1 then
      let rv := B.readPort e (TPC_TWR0_PORT + i)
      let b := rv.1 &&& 0xFF
      let r := readSlots B is rv.2 ⟨d.mask, Function.update d.val i b⟩
      (r.1, r.2.1, Event.readReg (TPC_TWR0_PORT + i) b :: r.2.2)
    else readSlots B is e d

/-- `thinkpad_ec_read_data`: read the current row, assuming it was
requested.  Classifies the status (three not-ready patterns, one valid
ready pattern), then reads slot 0, the mask-selected slots 1..14, slot 15
unconditionally, and re-checks the status (warning only). -/
def thinkpad_ec_read_data {σ : Type} (B : EcBehavior σ) (e : σ)
    (data : thinkpad_ec_row) : ReadResult σ :=
  let rv := B.readPort e TPC_STR3_PORT
  let b0 := rv.1 &&& 0xFF
  let str3 := b0 &&& H8S_STR3_MASK
  let ev0 := Event.readReg TPC_STR3_PORT b0
  if str3 = (H8S_STR3_IBF3B ||| H8S_STR3_MWMF) ∨ str3 = 0 ∨ str3 = H8S_STR3_SWMF then
    ⟨-EBUSY, data, rv.2, [ev0]⟩
  else if str3 ≠ (H8S_STR3_OBF3B ||| H8S_STR3_SWMF) then
    ⟨- EIO, data, rv.2, [ev0]⟩
  else
    let rv1 := B.readPort rv.2 TPC_TWR0_PORT
    let v0 := rv1.1 &&& 0xFF
    let rs := readSlots B (List.range' 1 14) rv1.2 ⟨data.mask, Function.update data.val 0 v0⟩
    let rvF := B.readPort rs.2.1 TPC_TWR15_PORT
    let vF := rvF.1 &&& 0xFF
    let rvS := B.readPort rvF.2 TPC_STR3_PORT
    ⟨0, ⟨rs.1.mask, Function.update rs.1.val 0xF vF⟩, rvS.2,
      ev0 :: Event.readReg TPC_TWR0_PORT v0 ::
        (rs.2.2 ++ [Event.readReg TPC_TWR15_PORT vF,
                    Event.readReg TPC_STR3_PORT (rvS.1 &&& 0xFF)])⟩

/-! ### Driver state and prefetch cache -/

/-- The driver's global state: the EC backend state, the prefetch cache
(`prefetch_arg0`, `prefetch_argF`, `prefetch_jiffies`), the current
jiffies clock, and the accumulated register-access trace. -/
structure EcState (σ : Type) where
  ec : σ
  prefetch_arg0 : Nat
  prefetch_argF : Nat
  prefetch_jiffies : Nat
  now : Nat
  trace : List Event

/-- `thinkpad_ec_is_row_fetched`: the prefetch-hit predicate. -/
def thinkpad_ec_is_row_fetched {σ : Type} (args : thinkpad_ec_row)
    (s : EcState σ) : Bool :=
  (s.prefetch_jiffies != TPC_PREFETCH_NONE) &&
  (s.prefetch_jiffies != TPC_PREFETCH_JUNK) &&
  (s.prefetch_arg0 == args.val 0) &&
  (s.prefetch_argF == args.val 0xF) &&
  decide (s.now < s.prefetch_jiffies + TPC_PREFETCH_TIMEOUT)

/-! ### Public row API -/

/-- Result of a public row operation: return code, response row, and the
updated driver state. -/
structure RowResult (σ : Type) where
  ret : Int
  data : thinkpad_ec_row
  state : EcState σ

/-- Result of `thinkpad_ec_prefetch_row`: return code and updated state. -/
structure PrefetchResult (σ : Type) where
  ret : Int
  state : EcState σ

/-- The request retry loop of `thinkpad_ec_read_row`: retry
`thinkpad_ec_request_row` while it reports `-EBUSY`, with a fixed delay,
up to the iteration cap. -/
def requestLoop {σ : Type} (B : EcBehavior σ) (args : thinkpad_ec_row) :
    Nat → σ → ReqResult σ
  | 0, e => ⟨-EBUSY, e, []⟩
  | n+1, e =>
    let r := thinkpad_ec_request_row B args e
    if r.ret = 0 then r
    else if r.ret ≠ -EBUSY then r
    else
      let r1 := requestLoop B args n r.ec
      ⟨r1.ret, r1.ec, r.events ++ Event.delay TPC_READ_NDELAY :: r1.events⟩

/-- The data retry loop of `thinkpad_ec_read_row`: retry
`thinkpad_ec_read_data` while it reports `-EBUSY`, with a fixed delay,
up to the iteration cap. -/
def readLoop {σ : Type} (B : EcBehavior σ) :
    Nat → σ → thinkpad_ec_row → ReadResult σ
  | 0, e, d => ⟨-EBUSY, d, e, []⟩
  | n+1, e, d =>
    let r := thinkpad_ec_read_data B e d
    if r.ret = 0 then r
    else if r.ret ≠ -EBUSY then r
    else
      let r1 := readLoop B n r.ec r.data
      ⟨r1.ret, r1.data, r1.ec, r.events ++ Event.delay TPC_READ_NDELAY :: r1.events⟩

/-- `thinkpad_ec_read_row`: read a row, fetching and retrying as needed.
A valid matching prefetch skips the request phase.  Every exit path marks
the prefetch entry junk. -/
def thinkpad_ec_read_row {σ : Type} (B : EcBehavior σ)
    (args data : thinkpad_ec_row) (s : EcState σ) : RowResult σ :=
  if thinkpad_ec_is_row_fetched args s then
    let r := readLoop B TPC_READ_RETRIES s.ec data
    ⟨r.ret, r.data,
      { s with ec := r.ec, trace := s.trace ++ r.events,
               prefetch_jiffies := TPC_PREFETCH_JUNK }⟩
  else
    let q := requestLoop B args TPC_READ_RETRIES s.ec
    if q.ret = 0 then
      let r := readLoop B TPC_READ_RETRIES q.ec data
      ⟨r.ret, r.data,
        { s with ec := r.ec, trace := s.trace ++ (q.events ++ r.events),
                 prefetch_jiffies := TPC_PREFETCH_JUNK }⟩
    else
      ⟨q.ret, data,
        { s with ec := q.ec, trace := s.trace ++ q.events,
                 prefetch_jiffies := TPC_PREFETCH_JUNK }⟩

/-- `thinkpad_ec_try_read_row`: one read attempt against the prefetched
row; `-ENODATA` if no valid matching prefetch; a successful read clears
the entry to empty. -/
def thinkpad_ec_try_read_row {σ : Type} (B : EcBehavior σ)
    (args data : thinkpad_ec_row) (s : EcState σ) : RowResult σ :=
  if thinkpad_ec_is_row_fetched args s then
    let r := thinkpad_ec_read_data B s.ec data
    if r.ret = 0 then
      ⟨r.ret, r.data,
        { s with ec := r.ec, trace := s.trace ++ r.events,
                 prefetch_jiffies := TPC_PREFETCH_NONE }⟩
    else
      ⟨r.ret, r.data, { s with ec := r.ec, trace := s.trace ++ r.events }⟩
  else
    ⟨-ENODATA, data, s⟩

/-- `thinkpad_ec_prefetch_row`: one request attempt; on success record a
fresh valid prefetch entry stamped with the current jiffies, on failure
mark the entry junk. -/
def thinkpad_ec_prefetch_row {σ : Type} (B : EcBehavior σ)
    (args : thinkpad_ec_row) (s : EcState σ) : PrefetchResult σ :=
  let r := thinkpad_ec_request_row B args s.ec
  if r.ret ≠ 0 then
    ⟨r.ret, { s with ec := r.ec, trace := s.trace ++ r.events,
                     prefetch_jiffies := TPC_PREFETCH_JUNK }⟩
  else
    ⟨r.ret, { s with ec := r.ec, trace := s.trace ++ r.events,
                     prefetch_jiffies := s.now,
                     prefetch_arg0 := args.val 0,
                     prefetch_argF := args.val 0xF }⟩

/-- `thinkpad_ec_invalidate`: unconditionally mark the prefetch entry junk. -/
def thinkpad_ec_invalidate {σ : Type} (s : EcState σ) : EcState σ :=
  { s with prefetch_jiffies := TPC_PREFETCH_JUNK }

/-! ### Trace observation helpers -/

/-- Is this event a register write? -/
def isWriteEvent : Event → Bool
  | .writeReg _ _ => true
  | _ => false

/-- The sequence of row-data register ports (TWR0..TWR15) read, in order. -/
def dataReadPorts (l : List Event) : List Nat :=
  l.filterMap fun ev => match ev with
    | .readReg p _ =>
        if TPC_TWR0_PORT ≤ p ∧ p ≤ TPC_TWR15_PORT then some p else none
    | _ => none

/-- The data-register read order mandated by the read sub-protocol for a
response mask: slot 0, the mask-selected slots 1..14 in increasing order,
then slot 15 unconditionally. -/
def expectedReadPorts (m : Nat) : List Nat :=
  TPC_TWR0_PORT ::
    (((List.range' 1 14).filter fun i => (m >>> i) &&& 1 == 1).map
        fun i => TPC_TWR0_PORT + i)
    ++ [TPC_TWR15_PORT]

/-- An EC whose status register shows only the "normal progress" patterns
(`0x00` or `IBF3B|MWMF`) on every poll — it never raises SWMF. -/
def NormalProgressOnly {σ : Type} (B : EcBehavior σ) : Prop :=
  ∀ e : σ, ((B.readPort e TPC_STR3_PORT).1 &&& 0xFF) &&& H8S_STR3_MASK = 0 ∨
    ((B.readPort e TPC_STR3_PORT).1 &&& 0xFF) &&& H8S_STR3_MASK =
      (H8S_STR3_IBF3B ||| H8S_STR3_MWMF)

/-! ### Concrete EC machines used as witnesses and counterexamples -/

/-- An EC that reads 0 at every port forever (idle status). -/
def zeroEc : EcBehavior Unit :=
  ⟨fun _ _ => (0, ()), fun _ _ _ => ()⟩

/-- An EC whose status register always shows SWMF (busy handling some
previous request), so every request attempt reports transient-busy. -/
def busyEc : EcBehavior Unit :=
  ⟨fun _ p => (if p = TPC_STR3_PORT then H8S_STR3_SWMF else 0, ()), fun _ _ _ => ()⟩

/-- An EC that accepts a request (idle, then MWMF after the arg0 write)
but never starts its reply: after the terminator write the status stays
0x00 — a "normal progress" pattern — forever. -/
def silentEc : EcBehavior Nat where
  readPort := fun e p =>
    if p = TPC_STR3_PORT then (if e = 1 then (H8S_STR3_MWMF, e) else (0x00, e))
    else (0, e)
  writePort := fun e p _ =>
    if p = TPC_TWR0_PORT then (if e = 0 then 1 else e)
    else if p = TPC_TWR15_PORT then (if e = 1 then 2 else e)
    else e

/-- A well-behaved EC: idle, accepts arg0 (MWMF), raises OBF3B|SWMF after
the terminator write, and serves 0x42 for every data byte of the reply. -/
def goodEc : EcBehavior Nat where
  readPort := fun e p =>
    if p = TPC_STR3_PORT then
      (if e = 1 then (H8S_STR3_MWMF, e)
       else if e = 2 then (H8S_STR3_OBF3B ||| H8S_STR3_SWMF, e)
       else (0x00, e))
    else if e = 2 then
      (if p = TPC_TWR15_PORT then (0x42, 3) else (0x42, e))
    else (0, e)
  writePort := fun e p _ =>
    if p = TPC_TWR0_PORT then (if e = 0 then 1 else e)
    else if p = TPC_TWR15_PORT then (if e = 1 then 2 else e)
    else e

/-- An adversarial but deterministic EC: if its status register is polled
twice with no intervening write it spontaneously presents a reply of 0xBB
bytes; a properly requested reply is served as 0xAA bytes. -/
def advEc : EcBehavior Nat where
  readPort := fun e p =>
    if p = TPC_STR3_PORT then
      (if e = 0 then (0x00, 10)
       else if e = 10 then (H8S_STR3_OBF3B ||| H8S_STR3_SWMF, 11)
       else if e = 11 then (H8S_STR3_OBF3B ||| H8S_STR3_SWMF, 11)
       else if e = 1 then (H8S_STR3_MWMF, 1)
       else if e = 2 then (H8S_STR3_OBF3B ||| H8S_STR3_SWMF, 2)
       else (0x00, e))
    else if p = TPC_TWR0_PORT then
      (if e = 11 then (0xBB, 11) else if e = 2 then (0xAA, 2) else (0, e))
    else if p = TPC_TWR15_PORT then
      (if e = 11 then (0xBB, 12) else if e = 2 then (0xAA, 4) else (0, e))
    else (0, e)
  writePort := fun e p _ =>
    if p = TPC_TWR0_PORT then (if e = 0 ∨ e = 10 then 1 else e)
    else if p = TPC_TWR15_PORT then (if e = 1 then 2 else e)
    else e

/-- A valid request row: mask selects slots 0 and 15; arg0 = 0x01. -/
def rowReq : thinkpad_ec_row := ⟨0x8001, fun i => if i = 0 then 0x01 else 0⟩

/-- A minimal request row: mask selects only slot 0; arg0 = 0x01. -/
def rowMin : thinkpad_ec_row := ⟨0x0001, fun i => if i = 0 then 0x01 else 0⟩

/-- A request row violating the structural invariant: mask bit 0 clear. -/
def rowBad : thinkpad_ec_row := ⟨0x0002, fun _ => 0⟩

/-- A response row asking for slots 0 and 15 only. -/
def dataRow : thinkpad_ec_row := ⟨0x8001, fun _ => 0⟩

/-- Driver state over `zeroEc` whose prefetch entry is valid and matches
`rowReq`/`rowMin` (anchors 0x01/0x00, fresh timestamp). -/
def stFetched : EcState Unit := ⟨(), 0x01, 0x00, 990, 1000, []⟩

/-- Driver state over `zeroEc`/`busyEc` with a junk prefetch entry. -/
def stJunk : EcState Unit := ⟨(), 0, 0, TPC_PREFETCH_JUNK, 1000, []⟩

/-- State over the adversarial EC with a valid matching prefetch entry. -/
def stAdv : EcState Nat := ⟨0, 0x01, 0x00, 990, 1000, []⟩

/-- State over a `Nat`-state EC (`goodEc`, `silentEc`, `advEc`) in its
initial machine state, with a junk prefetch entry. -/
def stGood : EcState Nat := ⟨0, 0, 0, TPC_PREFETCH_JUNK, 1000, []⟩

/-- State over `zeroEc` with a junk prefetch entry whose pre-existing
trace already contains one register-write event. -/
def stWrit : EcState Unit := ⟨(), 0, 0, TPC_PREFETCH_JUNK, 1000, [Event.writeReg 0 0]⟩

/-! ### The Exclusion Gate

Modelled from the spec: the mutual-exclusion semantics of the kernel
semaphore behind `thinkpad_ec_lock`/`thinkpad_ec_unlock` (`DECLARE_MUTEX`,
`down_interruptible`, `up`) are not part of this repository's sources, so
the Exclusion Gate is modelled from the spec as a binary lock: acquire
succeeds only when the lock is free, every register access of an operation
happens while its thread holds the lock, and release frees it.  Two
threads (`true` and `false`) each run one logical row operation consisting
of a bounded number of register accesses. -/

/-- Modelled from the spec: global state of the two-caller Exclusion Gate
system — the lock owner (if any), each thread's phase (0 = not started,
1 = holding the gate, 2 = done), each thread's performed access count, and
the interleaving-sensitive log of which thread performed each register
access. -/
structure GateState where
  lock : Option Bool
  st1 : Nat
  did1 : Nat
  st2 : Nat
  did2 : Nat
  trace : List Bool
deriving DecidableEq

/-- The initial Exclusion Gate state: lock free, nothing started. -/
def initGate : GateState := ⟨none, 0, 0, 0, 0, []⟩

/-- Modelled from the spec: one step of the two-caller system under the
lock discipline.  `m`/`n` are the number of register accesses of thread
`true`'s resp. `false`'s operation.  A thread acquires the free gate
before any access, performs its accesses only while holding the gate, and
releases only after all of them. -/
inductive GateStep (m n : Nat) : GateState → GateState → Prop
  | acquire1 (s : GateState) : s.lock = none → s.st1 = 0 →
      GateStep m n s { s with lock := some true, st1 := 1 }
  | acquire2 (s : GateState) : s.lock = none → s.st2 = 0 →
      GateStep m n s { s with lock := some false, st2 := 1 }
  | access1 (s : GateState) : s.lock = some true → s.st1 = 1 → s.did1 < m →
      GateStep m n s { s with did1 := s.did1 + 1, trace := s.trace ++ [true] }
  | access2 (s : GateState) : s.lock = some false → s.st2 = 1 → s.did2 < n →
      GateStep m n s { s with did2 := s.did2 + 1, trace := s.trace ++ [false] }
  | release1 (s : GateState) : s.lock = some true → s.st1 = 1 → s.did1 = m →
      GateStep m n s { s with lock := none, st1 := 2 }
  | release2 (s : GateState) : s.lock = some false → s.st2 = 1 → s.did2 = n →
      GateStep m n s { s with lock := none, st2 := 2 }

/-- States reachable from the initial Exclusion Gate state. -/
inductive GateReachable (m n : Nat) : GateState → Prop
  | init : GateReachable m n initGate
  | step {s t : GateState} : GateReachable m n s → GateStep m n s t →
      GateReachable m n t

/-- An access log is interleaving-free: it never contains one thread's
access, then the other's, then the first's again (as a subsequence) — all
accesses of one logical operation complete before any access of the next
begins. -/
def NoInterleave (l : List Bool) : Prop :=
  ∀ b : Bool, ¬ List.Sublist [b, !b, b] l

/-- Inductive invariant of the Exclusion Gate system: phase/count
consistency, lock ownership, and the block structure of the access log. -/
def GateInv (m n : Nat) (s : GateState) : Prop :=
  (s.st1 = 0 → s.did1 = 0) ∧
  (s.st2 = 0 → s.did2 = 0) ∧
  (s.st1 = 1 → s.lock = some true) ∧
  (s.st2 = 1 → s.lock = some false) ∧
  (s.trace = List.replicate s.did1 true ++ List.replicate s.did2 false ∨
   s.trace = List.replicate s.did2 false ++ List.replicate s.did1 true) ∧
  (s.lock = some true →
    s.st1 = 1 ∧
    s.trace = List.replicate s.did2 false ++ List.replicate s.did1 true) ∧
  (s.lock = some false →
    s.st2 = 1 ∧
    s.trace = List.replicate s.did1 true ++ List.replicate s.did2 false)

/-! ## Helper lemmas -/

theorem requestLoop_succ {σ : Type} (B : EcBehavior σ) (args : thinkpad_ec_row)
    (n : Nat) (e : σ) :
    requestLoop B args (n+1) e =
      (let r := thinkpad_ec_request_row B args e
       if r.ret = 0 then r
       else if r.ret ≠ -EBUSY then r
       else
         let r1 := requestLoop B args n r.ec
         ⟨r1.ret, r1.ec, r.events ++ Event.delay TPC_READ_NDELAY :: r1.events⟩) := rfl

theorem readLoop_succ {σ : Type} (B : EcBehavior σ) (n : Nat) (e : σ)
    (d : thinkpad_ec_row) :
    readLoop B (n+1) e d =
      (let r := thinkpad_ec_read_data B e d
       if r.ret = 0 then r
       else if r.ret ≠ -EBUSY then r
       else
         let r1 := readLoop B n r.ec r.data
         ⟨r1.ret, r1.data, r1.ec, r.events ++ Event.delay TPC_READ_NDELAY :: r1.events⟩) := rfl

theorem prefetch_row_ret {σ : Type} (B : EcBehavior σ) (args : thinkpad_ec_row)
    (s : EcState σ) :
    (thinkpad_ec_prefetch_row B args s).ret =
      (thinkpad_ec_request_row B args s.ec).ret := by
  by_cases h : (thinkpad_ec_request_row B args s.ec).ret = 0 <;>
    simp [thinkpad_ec_prefetch_row, h]

/-! ## Claims -/

/-- C6: `thinkpad_ec_is_row_fetched` returns true iff the prefetch entry
is neither empty nor junk, its stored anchor bytes equal the request's
slot-0 and slot-15 bytes exactly, and the current time is strictly before
the stored timestamp plus the fixed TTL. -/
theorem is_row_fetched_characterization {σ : Type} (args : thinkpad_ec_row)
    (s : EcState σ) :
    thinkpad_ec_is_row_fetched args s = true ↔
      (s.prefetch_jiffies ≠ TPC_PREFETCH_NONE ∧
       s.prefetch_jiffies ≠ TPC_PREFETCH_JUNK ∧
       s.prefetch_arg0 = args.val 0 ∧
       s.prefetch_argF = args.val 0xF ∧
       s.now < s.prefetch_jiffies + TPC_PREFETCH_TIMEOUT) := by
  simp [thinkpad_ec_is_row_fetched, Bool.and_eq_true, decide_eq_true_iff,
    bne_iff_ne, beq_iff_eq, and_assoc]

/-- C2 counterexample: with a valid matching prefetch entry and an EC
that reports not-ready status, `thinkpad_ec_try_read_row` runs a read
cycle that does not end in success (`-EBUSY`), yet the prefetch entry is
left untouched — still a valid timestamp, not the junk state — refuting
the claim that every unsuccessful cycle leaves the entry junk. -/
theorem try_read_row_failure_leaves_entry_not_junk :
    (thinkpad_ec_try_read_row zeroEc rowMin dataRow stFetched).ret ≠ 0 ∧
    (thinkpad_ec_try_read_row zeroEc rowMin dataRow stFetched).state.prefetch_jiffies ≠
      TPC_PREFETCH_JUNK ∧
    (thinkpad_ec_try_read_row zeroEc rowMin dataRow stFetched).state.prefetch_jiffies =
      stFetched.prefetch_jiffies := by
  refine ⟨by decide, by decide, by decide⟩

/-- C2 (amended): `thinkpad_ec_read_row` leaves the prefetch entry junk on
every exit (success or not); `thinkpad_ec_prefetch_row` leaves it junk
exactly when it fails; `thinkpad_ec_invalidate` always leaves it junk; but
`thinkpad_ec_try_read_row` leaves the entry unchanged whenever it does not
succeed (and empties it on success) — it never marks the entry junk. -/
theorem prefetch_entry_after_operations {σ : Type} (B : EcBehavior σ)
    (args data : thinkpad_ec_row) (s : EcState σ) :
    (thinkpad_ec_read_row B args data s).state.prefetch_jiffies =
      TPC_PREFETCH_JUNK ∧
    (thinkpad_ec_prefetch_row B args s).state.prefetch_jiffies =
      (if (thinkpad_ec_prefetch_row B args s).ret = 0 then s.now
       else TPC_PREFETCH_JUNK) ∧
    (thinkpad_ec_try_read_row B args data s).state.prefetch_jiffies =
      (if (thinkpad_ec_try_read_row B args data s).ret = 0 then TPC_PREFETCH_NONE
       else s.prefetch_jiffies) ∧
    (thinkpad_ec_invalidate s).prefetch_jiffies = TPC_PREFETCH_JUNK := by
  refine ⟨?_, ?_, ?_, rfl⟩
  · by_cases hf : thinkpad_ec_is_row_fetched args s <;>
      by_cases hq : (requestLoop B args TPC_READ_RETRIES s.ec).ret = 0 <;>
        simp [thinkpad_ec_read_row, hf, hq]
  · by_cases h : (thinkpad_ec_request_row B args s.ec).ret = 0 <;>
      simp [thinkpad_ec_prefetch_row, h]
  · by_cases hf : thinkpad_ec_is_row_fetched args s
    · by_cases h : (thinkpad_ec_read_data B s.ec data).ret = 0 <;>
        simp [thinkpad_ec_try_read_row, hf, h]
    · norm_num [thinkpad_ec_try_read_row, hf, ENODATA]

/-- C4: a request row with mask bit 0 clear makes the request phase fail
immediately with `-EINVAL` and no register access: `thinkpad_ec_request_row`
returns `-EINVAL` with an untouched EC and empty access list, and so do
`thinkpad_ec_prefetch_row` and (when no valid prefetch matches)
`thinkpad_ec_read_row`. -/
theorem invalid_mask_rejected_without_register_access {σ : Type}
    (B : EcBehavior σ) (args data : thinkpad_ec_row) (e : σ) (s : EcState σ)
    (hm : args.mask &&& 0x0001 = 0) :
    thinkpad_ec_request_row B args e = ⟨-EINVAL, e, []⟩ ∧
    (thinkpad_ec_prefetch_row B args s).ret = -EINVAL ∧
    (thinkpad_ec_prefetch_row B args s).state.ec = s.ec ∧
    (thinkpad_ec_prefetch_row B args s).state.trace = s.trace ∧
    (thinkpad_ec_is_row_fetched args s = false →
      (thinkpad_ec_read_row B args data s).ret = -EINVAL ∧
      (thinkpad_ec_read_row B args data s).state.ec = s.ec ∧
      (thinkpad_ec_read_row B args data s).state.trace = s.trace) := by
  have hreq : ∀ x : σ, thinkpad_ec_request_row B args x = ⟨-EINVAL, x, []⟩ := by
    intro x; unfold thinkpad_ec_request_row; rw [if_pos hm]
  have hloop : requestLoop B args TPC_READ_RETRIES s.ec = ⟨-EINVAL, s.ec, []⟩ := by
    rw [show TPC_READ_RETRIES = 149 + 1 from rfl, requestLoop_succ]
    simp only [hreq s.ec]
    norm_num [EINVAL, EBUSY]
  have hpre : thinkpad_ec_prefetch_row B args s =
      ⟨-EINVAL, { s with trace := s.trace ++ [],
                         prefetch_jiffies := TPC_PREFETCH_JUNK }⟩ := by
    unfold thinkpad_ec_prefetch_row
    rw [hreq s.ec]
    norm_num [EINVAL]
  refine ⟨hreq e, ?_, ?_, ?_, ?_⟩
  · rw [hpre]
  · rw [hpre]
  · rw [hpre]; simp
  · intro hf
    simp [thinkpad_ec_read_row, hf, hloop]
    norm_num [EINVAL]

/-- C4 witness: the invalid-mask rejection evaluated on the concrete row
`rowBad` against `zeroEc`. -/
theorem invalid_mask_rejected_without_register_access_witness :
    (rowBad.mask &&& 0x0001 = 0) ∧
    thinkpad_ec_is_row_fetched rowBad stJunk = false ∧
    ((thinkpad_ec_read_row zeroEc rowBad dataRow stJunk).ret = -EINVAL ∧
     (thinkpad_ec_read_row zeroEc rowBad dataRow stJunk).state.ec = stJunk.ec ∧
     (thinkpad_ec_read_row zeroEc rowBad dataRow stJunk).state.trace = stJunk.trace) :=
  ⟨by decide, by decide,
    (invalid_mask_rejected_without_register_access zeroEc rowBad dataRow ()
      stJunk (by decide)).2.2.2.2 (by decide)⟩

theorem readSlots_val_bit_clear {σ : Type} (B : EcBehavior σ) (li : List Nat) :
    ∀ (e : σ) (m : Nat) (v : Nat → Nat) (i : Nat), (m >>> i) &&& 1 = 0 →
      (readSlots B li e ⟨m, v⟩).1.val i = v i := by
  induction li with
  | nil => intro e m v i _; rfl
  | cons j tl ih =>
    intro e m v i hi
    rw [Nat.and_one_is_mod] at hi
    by_cases hb : (m >>> j) % 2 = 1
    · have hne : j ≠ i := by
        intro he; rw [he, hi] at hb; exact absurd hb (by decide)
      simp only [readSlots, Nat.and_one_is_mod, hb, if_pos]
      rw [ih _ m _ i (by rw [Nat.and_one_is_mod]; exact hi)]
      exact Function.update_noteq (Ne.symm hne) _ _
    · simp only [readSlots, Nat.and_one_is_mod, hb, if_neg, ite_false]
      exact ih e m v i (by rw [Nat.and_one_is_mod]; exact hi)

theorem readSlots_val_not_mem {σ : Type} (B : EcBehavior σ) (li : List Nat) :
    ∀ (e : σ) (m : Nat) (v : Nat → Nat) (i : Nat), i ∉ li →
      (readSlots B li e ⟨m, v⟩).1.val i = v i := by
  induction li with
  | nil => intro e m v i _; rfl
  | cons j tl ih =>
    intro e m v i hi
    have hji : j ≠ i := fun he => hi (he ▸ List.mem_cons_self j tl)
    have hti : i ∉ tl := fun ht => hi (List.mem_cons_of_mem j ht)
    by_cases hb : (m >>> j) % 2 = 1
    · simp only [readSlots, Nat.and_one_is_mod, hb, if_pos]
      rw [ih _ m _ i hti]
      exact Function.update_noteq (Ne.symm hji) _ _
    · simp only [readSlots, Nat.and_one_is_mod, hb, if_neg, ite_false]
      exact ih e m v i hti

theorem readSlots_val_irrel {σ : Type} (B : EcBehavior σ) (li : List Nat) :
    ∀ (e : σ) (m : Nat) (v w : Nat → Nat),
      (readSlots B li e ⟨m, v⟩).2 = (readSlots B li e ⟨m, w⟩).2 := by
  induction li with
  | nil => intro e m v w; rfl
  | cons j tl ih =>
    intro e m v w
    by_cases hb : (m >>> j) % 2 = 1
    · simp only [readSlots, Nat.and_one_is_mod, hb, if_pos]
      rw [ih (B.readPort e (TPC_TWR0_PORT + j)).2 m
        (Function.update v j ((B.readPort e (TPC_TWR0_PORT + j)).1 &&& 0xFF))
        (Function.update w j ((B.readPort e (TPC_TWR0_PORT + j)).1 &&& 0xFF))]
    · simp only [readSlots, Nat.and_one_is_mod, hb, if_neg, ite_false]
      exact ih e m v w

theorem readSlots_no_writes {σ : Type} (B : EcBehavior σ) (li : List Nat) :
    ∀ (e : σ) (d : thinkpad_ec_row) (ev : Event), ev ∈ (readSlots B li e d).2.2 →
      isWriteEvent ev = false := by
  induction li with
  | nil => intro e d ev h; exact absurd h (List.not_mem_nil ev)
  | cons j tl ih =>
    intro e d ev h
    by_cases hb : (d.mask >>> j) % 2 = 1
    · simp only [readSlots, Nat.and_one_is_mod, hb, if_pos, List.mem_cons] at h
      rcases h with rfl | h
      · rfl
      · exact ih _ _ ev h
    · simp only [readSlots, Nat.and_one_is_mod, hb, if_neg, ite_false] at h
      exact ih e d ev h

theorem dataReadPorts_nil : dataReadPorts [] = [] := rfl

theorem dataReadPorts_cons_readReg (p v : Nat) (l : List Event) :
    dataReadPorts (Event.readReg p v :: l) =
      if TPC_TWR0_PORT ≤ p ∧ p ≤ TPC_TWR15_PORT then p :: dataReadPorts l
      else dataReadPorts l := by
  by_cases h : TPC_TWR0_PORT ≤ p ∧ p ≤ TPC_TWR15_PORT <;>
    simp [dataReadPorts, List.filterMap_cons, h]

theorem dataReadPorts_append (l1 l2 : List Event) :
    dataReadPorts (l1 ++ l2) = dataReadPorts l1 ++ dataReadPorts l2 := by
  simp [dataReadPorts, List.filterMap_append]

theorem readSlots_ports {σ : Type} (B : EcBehavior σ) (li : List Nat) :
    ∀ (e : σ) (d : thinkpad_ec_row), (∀ i ∈ li, 1 ≤ i ∧ i ≤ 14) →
      dataReadPorts (readSlots B li e d).2.2 =
        (li.filter fun i => (d.mask >>> i) &&& 1 == 1).map
          (fun i => TPC_TWR0_PORT + i) := by
  induction li with
  | nil => intro e d _; rfl
  | cons j tl ih =>
    intro e d hmem
    have hj := hmem j (List.mem_cons_self j tl)
    have htl : ∀ i ∈ tl, 1 ≤ i ∧ i ≤ 14 := fun i hi =>
      hmem i (List.mem_cons_of_mem j hi)
    have hrange : TPC_TWR0_PORT ≤ TPC_TWR0_PORT + j ∧
        TPC_TWR0_PORT + j ≤ TPC_TWR15_PORT := by
      constructor
      · exact Nat.le_add_right _ _
      · have := hj.2
        simp only [TPC_TWR0_PORT, TPC_TWR15_PORT]
        omega
    by_cases hb : (d.mask >>> j) % 2 = 1
    · simp only [readSlots, Nat.and_one_is_mod, hb, if_pos]
      rw [dataReadPorts_cons_readReg, if_pos hrange,
        ih (B.readPort e (TPC_TWR0_PORT + j)).2
          ⟨d.mask, Function.update d.val j
            ((B.readPort e (TPC_TWR0_PORT + j)).1 &&& 0xFF)⟩ htl]
      simp [List.filter_cons, Nat.and_one_is_mod, hb]
    · simp only [readSlots, Nat.and_one_is_mod, hb, if_neg, ite_false]
      rw [ih e d htl]
      simp [List.filter_cons, Nat.and_one_is_mod, hb]

theorem read_data_no_writes {σ : Type} (B : EcBehavior σ) (e : σ)
    (d : thinkpad_ec_row) :
    ∀ ev ∈ (thinkpad_ec_read_data B e d).events, isWriteEvent ev = false := by
  intro ev hev
  by_cases h1 : (((B.readPort e TPC_STR3_PORT).1 &&& 0xFF) &&& H8S_STR3_MASK) =
      (H8S_STR3_IBF3B ||| H8S_STR3_MWMF) ∨
      (((B.readPort e TPC_STR3_PORT).1 &&& 0xFF) &&& H8S_STR3_MASK) = 0 ∨
      (((B.readPort e TPC_STR3_PORT).1 &&& 0xFF) &&& H8S_STR3_MASK) = H8S_STR3_SWMF
  · simp [thinkpad_ec_read_data, h1] at hev
    subst hev; rfl
  · by_cases h2 : (((B.readPort e TPC_STR3_PORT).1 &&& 0xFF) &&& H8S_STR3_MASK) ≠
        (H8S_STR3_OBF3B ||| H8S_STR3_SWMF)
    · simp [thinkpad_ec_read_data, h1, h2] at hev
      subst hev; rfl
    · simp only [thinkpad_ec_read_data, h1, h2, if_neg, ite_false,
        List.mem_cons, List.mem_append] at hev
      rcases hev with rfl | rfl | hev | rfl | rfl | hev
      · rfl
      · rfl
      · exact readSlots_no_writes B (List.range' 1 14) _ _ ev hev
      · rfl
      · rfl
      · exact absurd hev (List.not_mem_nil ev)

/-- C5: in the read sub-protocol, once the status check passes, the row
registers are read in exactly this order: slot 0 first, then every slot
1..14 whose mask bit is set in increasing order, then slot 15 last —
unconditionally, even when mask bit 15 is clear. -/
theorem read_data_port_order {σ : Type} (B : EcBehavior σ) (e : σ)
    (data : thinkpad_ec_row)
    (h : (thinkpad_ec_read_data B e data).ret = 0) :
    dataReadPorts (thinkpad_ec_read_data B e data).events =
      expectedReadPorts data.mask := by
  by_cases h1 : (((B.readPort e TPC_STR3_PORT).1 &&& 0xFF) &&& H8S_STR3_MASK) =
      (H8S_STR3_IBF3B ||| H8S_STR3_MWMF) ∨
      (((B.readPort e TPC_STR3_PORT).1 &&& 0xFF) &&& H8S_STR3_MASK) = 0 ∨
      (((B.readPort e TPC_STR3_PORT).1 &&& 0xFF) &&& H8S_STR3_MASK) = H8S_STR3_SWMF
  · simp only [thinkpad_ec_read_data, h1, if_pos] at h
    norm_num [EBUSY] at h
  · by_cases h2 : (((B.readPort e TPC_STR3_PORT).1 &&& 0xFF) &&& H8S_STR3_MASK) ≠
        (H8S_STR3_OBF3B ||| H8S_STR3_SWMF)
    · exfalso
      simp [thinkpad_ec_read_data, h1, h2, EIO] at h
    · have hmem : ∀ i ∈ List.range' 1 14, 1 ≤ i ∧ i ≤ 14 := by
        intro i hi
        rw [List.mem_range'] at hi
        omega
      have hstr : ¬(TPC_TWR0_PORT ≤ TPC_STR3_PORT ∧
          TPC_STR3_PORT ≤ TPC_TWR15_PORT) := by decide
      have htwr0 : TPC_TWR0_PORT ≤ TPC_TWR0_PORT ∧
          TPC_TWR0_PORT ≤ TPC_TWR15_PORT := by decide
      have htwrF : TPC_TWR0_PORT ≤ TPC_TWR15_PORT ∧
          TPC_TWR15_PORT ≤ TPC_TWR15_PORT := by decide
      simp only [thinkpad_ec_read_data, h1, h2, if_neg, ite_false]
      rw [dataReadPorts_cons_readReg, if_neg hstr,
        dataReadPorts_cons_readReg, if_pos htwr0,
        dataReadPorts_append,
        readSlots_ports _ _ _ _ hmem,
        dataReadPorts_cons_readReg, if_pos htwrF,
        dataReadPorts_cons_readReg, if_neg hstr]
      simp [expectedReadPorts, dataReadPorts_nil]

/-- C5 witness: the register read order evaluated on `goodEc` in its
reply-ready machine state with the slots-0-and-15 response mask. -/
theorem read_data_port_order_witness :
    (thinkpad_ec_read_data goodEc 2 dataRow).ret = 0 ∧
    dataReadPorts (thinkpad_ec_read_data goodEc 2 dataRow).events =
      expectedReadPorts dataRow.mask :=
  ⟨by decide, read_data_port_order goodEc 2 dataRow (by decide)⟩

/-- C9: `thinkpad_ec_read_data` leaves `data.val i` unchanged for every
slot `i` in 1..14 whose response-mask bit is clear (in all cases), and on
a successful read the output bytes at slots 0 and 15 are overwritten
regardless of the incoming values: they do not depend on the caller's row
contents. -/
theorem read_data_frame_effects {σ : Type} (B : EcBehavior σ) (e : σ)
    (data : thinkpad_ec_row) :
    (∀ i, 1 ≤ i → i ≤ 14 → (data.mask >>> i) &&& 1 = 0 →
      (thinkpad_ec_read_data B e data).data.val i = data.val i) ∧
    (∀ g : Nat → Nat, (thinkpad_ec_read_data B e data).ret = 0 →
      (thinkpad_ec_read_data B e ⟨data.mask, g⟩).ret = 0 ∧
      (thinkpad_ec_read_data B e ⟨data.mask, g⟩).data.val 0 =
        (thinkpad_ec_read_data B e data).data.val 0 ∧
      (thinkpad_ec_read_data B e ⟨data.mask, g⟩).data.val 0xF =
        (thinkpad_ec_read_data B e data).data.val 0xF) := by
  constructor
  · intro i h1i h14i hbit
    by_cases h1 : (((B.readPort e TPC_STR3_PORT).1 &&& 0xFF) &&& H8S_STR3_MASK) =
        (H8S_STR3_IBF3B ||| H8S_STR3_MWMF) ∨
        (((B.readPort e TPC_STR3_PORT).1 &&& 0xFF) &&& H8S_STR3_MASK) = 0 ∨
        (((B.readPort e TPC_STR3_PORT).1 &&& 0xFF) &&& H8S_STR3_MASK) =
          H8S_STR3_SWMF
    · simp [thinkpad_ec_read_data, h1]
    · by_cases h2 : (((B.readPort e TPC_STR3_PORT).1 &&& 0xFF) &&& H8S_STR3_MASK) ≠
          (H8S_STR3_OBF3B ||| H8S_STR3_SWMF)
      · simp [thinkpad_ec_read_data, h1, h2]
      · have hne15 : i ≠ 15 := by omega
        have hne0 : i ≠ 0 := by omega
        simp only [thinkpad_ec_read_data, h1, h2, if_neg, ite_false]
        rw [Function.update_noteq hne15,
          readSlots_val_bit_clear B (List.range' 1 14) _ data.mask _ i hbit,
          Function.update_noteq hne0]
  · intro g hret
    by_cases h1 : (((B.readPort e TPC_STR3_PORT).1 &&& 0xFF) &&& H8S_STR3_MASK) =
        (H8S_STR3_IBF3B ||| H8S_STR3_MWMF) ∨
        (((B.readPort e TPC_STR3_PORT).1 &&& 0xFF) &&& H8S_STR3_MASK) = 0 ∨
        (((B.readPort e TPC_STR3_PORT).1 &&& 0xFF) &&& H8S_STR3_MASK) =
          H8S_STR3_SWMF
    · exfalso; simp [thinkpad_ec_read_data, h1, EBUSY] at hret
    · by_cases h2 : (((B.readPort e TPC_STR3_PORT).1 &&& 0xFF) &&& H8S_STR3_MASK) ≠
          (H8S_STR3_OBF3B ||| H8S_STR3_SWMF)
      · exfalso; simp [thinkpad_ec_read_data, h1, h2, EIO] at hret
      · have h0nm : (0:Nat) ∉ List.range' 1 14 := by decide
        have h05 : (0:Nat) ≠ 15 := by decide
        refine ⟨?_, ?_, ?_⟩
        · simp [thinkpad_ec_read_data, h1, h2]
        · simp only [thinkpad_ec_read_data, h1, h2, if_neg, ite_false]
          rw [Function.update_noteq h05, Function.update_noteq h05,
            readSlots_val_not_mem B (List.range' 1 14) _ data.mask _ 0 h0nm,
            readSlots_val_not_mem B (List.range' 1 14) _ data.mask _ 0 h0nm,
            Function.update_same, Function.update_same]
        · simp only [thinkpad_ec_read_data, h1, h2, if_neg, ite_false]
          rw [Function.update_same, Function.update_same,
            readSlots_val_irrel B (List.range' 1 14)
              (B.readPort (B.readPort e TPC_STR3_PORT).2 TPC_TWR0_PORT).2 data.mask
              (Function.update g 0
                ((B.readPort (B.readPort e TPC_STR3_PORT).2 TPC_TWR0_PORT).1 &&& 0xFF))
              (Function.update data.val 0
                ((B.readPort (B.readPort e TPC_STR3_PORT).2 TPC_TWR0_PORT).1 &&& 0xFF))]

/-- C9 witness: the frame effects evaluated on `goodEc` in its reply-ready
state: slot 3 (mask bit clear) is preserved, and slots 0/15 of the output
do not depend on the incoming row values. -/
theorem read_data_frame_effects_witness :
    ((thinkpad_ec_read_data goodEc 2 dataRow).data.val 3 = dataRow.val 3) ∧
    ((thinkpad_ec_read_data goodEc 2 ⟨dataRow.mask, fun _ => 7⟩).ret = 0 ∧
     (thinkpad_ec_read_data goodEc 2 ⟨dataRow.mask, fun _ => 7⟩).data.val 0 =
       (thinkpad_ec_read_data goodEc 2 dataRow).data.val 0 ∧
     (thinkpad_ec_read_data goodEc 2 ⟨dataRow.mask, fun _ => 7⟩).data.val 0xF =
       (thinkpad_ec_read_data goodEc 2 dataRow).data.val 0xF) :=
  ⟨(read_data_frame_effects goodEc 2 dataRow).1 3 (by decide) (by decide)
      (by decide),
    (read_data_frame_effects goodEc 2 dataRow).2 (fun _ => 7) (by decide)⟩

/-- C10: `thinkpad_ec_try_read_row` never writes to any EC register (any
write event in the final trace was already in the starting trace), and
when the prefetch entry does not match it returns `-ENODATA` having
performed no register access at all, leaving the response row and the
whole driver state (prefetch entry included) unchanged. -/
theorem try_read_row_never_writes {σ : Type} (B : EcBehavior σ)
    (args data : thinkpad_ec_row) (s : EcState σ) :
    (∀ ev : Event, isWriteEvent ev = true →
      ev ∈ (thinkpad_ec_try_read_row B args data s).state.trace →
      ev ∈ s.trace) ∧
    (thinkpad_ec_is_row_fetched args s = false →
      thinkpad_ec_try_read_row B args data s = ⟨-ENODATA, data, s⟩) := by
  constructor
  · intro ev hw hev
    by_cases hf : thinkpad_ec_is_row_fetched args s
    · by_cases hr : (thinkpad_ec_read_data B s.ec data).ret = 0 <;>
      · simp only [thinkpad_ec_try_read_row, hf, hr, if_pos, if_neg, ite_true,
          ite_false, List.mem_append] at hev
        rcases hev with hev | hev
        · exact hev
        · exact absurd hw
            (by rw [read_data_no_writes B s.ec data ev hev]; decide)
    · simpa [thinkpad_ec_try_read_row, hf] using hev
  · intro hf
    simp [thinkpad_ec_try_read_row, hf]

/-- C10 witness: on a state whose trace already holds a write event and
whose prefetch entry is junk, `thinkpad_ec_try_read_row` returns
`-ENODATA` with everything unchanged, and the write event in the final
trace is the pre-existing one. -/
theorem try_read_row_never_writes_witness :
    (Event.writeReg 0 0 ∈ stWrit.trace) ∧
    (thinkpad_ec_try_read_row zeroEc rowMin dataRow stWrit =
      ⟨-ENODATA, dataRow, stWrit⟩) :=
  ⟨(try_read_row_never_writes zeroEc rowMin dataRow stWrit).1
      (Event.writeReg 0 0) rfl (by decide),
    (try_read_row_never_writes zeroEc rowMin dataRow stWrit).2 (by decide)⟩

/-- C1 counterexample: against `silentEc` — an EC that accepts the request
and then shows only the normal-progress status 0x00 forever — the
post-terminator poll loop exhausts its `TPC_REQUEST_RETRIES` budget having
observed only normal-progress patterns, and the request reports the hard
error `- EIO` ("EC is mysteriously silent"), not the transient `-EBUSY`
the claim states; `thinkpad_ec_read_row` propagates the same `- EIO`. -/
theorem request_row_poll_exhaustion_returns_eio :
    (thinkpad_ec_request_row silentEc rowMin 0).ret = - EIO ∧
    (thinkpad_ec_request_row silentEc rowMin 0).ret ≠ -EBUSY ∧
    (thinkpad_ec_read_row silentEc rowMin dataRow stGood).ret = - EIO := by
  refine ⟨by decide, by decide, by decide⟩

/-- C1 (amended): when the post-terminator status poll loop exhausts its
retry budget having observed only normal-progress patterns (never
slave-write-mode), the request sub-protocol reports the hard I/O error
`- EIO`, not the transient-busy error: for every EC whose status register
shows only normal-progress patterns, `requestPoll` returns `- EIO` at every
fuel value. -/
theorem requestPoll_exhaustion_reports_eio {σ : Type} (B : EcBehavior σ)
    (hB : NormalProgressOnly B) (n : Nat) (e : σ) :
    (requestPoll B n e).ret = - EIO := by
  induction n generalizing e with
  | zero => rfl
  | succ n ih =>
    rcases hB e with hz | ha
    · simp only [requestPoll, hz]
      norm_num [H8S_STR3_SWMF, H8S_STR3_IBF3B, H8S_STR3_MWMF]
      exact ih _
    · simp only [requestPoll, ha]
      norm_num [H8S_STR3_SWMF, H8S_STR3_IBF3B, H8S_STR3_MWMF]
      exact ih _

/-- C1 witness: the exhaustion behavior evaluated against the constantly
idle EC at the configured retry budget. -/
theorem requestPoll_exhaustion_reports_eio_witness :
    NormalProgressOnly zeroEc ∧
    (requestPoll zeroEc TPC_REQUEST_RETRIES ()).ret = - EIO := by
  have hz : NormalProgressOnly zeroEc := by
    intro e; left; simp [zeroEc]
  exact ⟨hz, requestPoll_exhaustion_reports_eio zeroEc hz TPC_REQUEST_RETRIES ()⟩

/-- C3 counterexample: from an initial state that already holds a valid
matching prefetch entry, against the deterministic `advEc`, both paths
succeed yet a direct `thinkpad_ec_read_row` returns different response
data (0xBB) from prefetch-followed-by-`thinkpad_ec_try_read_row` (0xAA):
the direct read consumes the pre-existing prefetch entry and skips the
request phase, while the prefetch path issues a fresh request. -/
theorem prefetch_then_try_read_differs_from_direct_read :
    (thinkpad_ec_read_row advEc rowReq dataRow stAdv).ret = 0 ∧
    (thinkpad_ec_prefetch_row advEc rowReq stAdv).ret = 0 ∧
    (thinkpad_ec_try_read_row advEc rowReq dataRow
        (thinkpad_ec_prefetch_row advEc rowReq stAdv).state).ret = 0 ∧
    (thinkpad_ec_read_row advEc rowReq dataRow stAdv).data.val 0 ≠
      (thinkpad_ec_try_read_row advEc rowReq dataRow
        (thinkpad_ec_prefetch_row advEc rowReq stAdv).state).data.val 0 := by
  refine ⟨by decide, by decide, by decide, by decide⟩

/-- C3 (amended): from an initial state with no valid matching prefetch
entry, whenever a `thinkpad_ec_prefetch_row` immediately followed by
`thinkpad_ec_try_read_row` both succeed, `thinkpad_ec_read_row` run
directly from the same initial state also succeeds and yields exactly the
same response row. -/
theorem prefetch_then_try_read_matches_read_row {σ : Type} (B : EcBehavior σ)
    (args data : thinkpad_ec_row) (s : EcState σ)
    (hnf : thinkpad_ec_is_row_fetched args s = false)
    (hpre : (thinkpad_ec_prefetch_row B args s).ret = 0)
    (htry : (thinkpad_ec_try_read_row B args data
      (thinkpad_ec_prefetch_row B args s).state).ret = 0) :
    (thinkpad_ec_read_row B args data s).ret = 0 ∧
    (thinkpad_ec_read_row B args data s).data =
      (thinkpad_ec_try_read_row B args data
        (thinkpad_ec_prefetch_row B args s).state).data := by
  have hr0 : (thinkpad_ec_request_row B args s.ec).ret = 0 := by
    rw [prefetch_row_ret] at hpre; exact hpre
  have hecps : (thinkpad_ec_prefetch_row B args s).state.ec =
      (thinkpad_ec_request_row B args s.ec).ec := by
    simp [thinkpad_ec_prefetch_row, hr0]
  by_cases hfp : thinkpad_ec_is_row_fetched args
    (thinkpad_ec_prefetch_row B args s).state
  case neg =>
    exfalso
    simp [thinkpad_ec_try_read_row, hfp, ENODATA] at htry
  case pos =>
    have htr_ret : (thinkpad_ec_try_read_row B args data
        (thinkpad_ec_prefetch_row B args s).state).ret =
        (thinkpad_ec_read_data B
          (thinkpad_ec_prefetch_row B args s).state.ec data).ret := by
      by_cases h : (thinkpad_ec_read_data B
          (thinkpad_ec_prefetch_row B args s).state.ec data).ret = 0 <;>
        simp [thinkpad_ec_try_read_row, hfp, h]
    have htr_data : (thinkpad_ec_try_read_row B args data
        (thinkpad_ec_prefetch_row B args s).state).data =
        (thinkpad_ec_read_data B
          (thinkpad_ec_prefetch_row B args s).state.ec data).data := by
      by_cases h : (thinkpad_ec_read_data B
          (thinkpad_ec_prefetch_row B args s).state.ec data).ret = 0 <;>
        simp [thinkpad_ec_try_read_row, hfp, h]
    have hrd0 : (thinkpad_ec_read_data B
        (thinkpad_ec_request_row B args s.ec).ec data).ret = 0 := by
      rw [← hecps, ← htr_ret]; exact htry
    have hloop : requestLoop B args TPC_READ_RETRIES s.ec =
        thinkpad_ec_request_row B args s.ec := by
      rw [show TPC_READ_RETRIES = 149 + 1 from rfl, requestLoop_succ]
      simp [hr0]
    have hread : readLoop B TPC_READ_RETRIES
        (thinkpad_ec_request_row B args s.ec).ec data =
        thinkpad_ec_read_data B (thinkpad_ec_request_row B args s.ec).ec data := by
      rw [show TPC_READ_RETRIES = 149 + 1 from rfl, readLoop_succ]
      simp [hrd0]
    constructor
    · simp [thinkpad_ec_read_row, hnf, hloop, hr0, hread, hrd0]
    · simp [thinkpad_ec_read_row, hnf, hloop, hr0, hread]
      rw [htr_data, hecps]

/-- C3 witness: the equivalence evaluated against the well-behaved
`goodEc` from the junk-prefetch initial state: both the prefetch path and
the direct read succeed, with the same data. -/
theorem prefetch_then_try_read_matches_read_row_witness :
    (thinkpad_ec_read_row goodEc rowReq dataRow stGood).ret = 0 ∧
    (thinkpad_ec_read_row goodEc rowReq dataRow stGood).data =
      (thinkpad_ec_try_read_row goodEc rowReq dataRow
        (thinkpad_ec_prefetch_row goodEc rowReq stGood).state).data :=
  prefetch_then_try_read_matches_read_row goodEc rowReq dataRow stGood
    (by decide) (by decide) (by decide)

theorem request_row_busyEc (args : thinkpad_ec_row)
    (h : args.mask &&& 0x0001 = 1) (u : Unit) :
    thinkpad_ec_request_row busyEc args u =
      ⟨-EBUSY, (), [Event.readReg TPC_STR3_PORT H8S_STR3_SWMF]⟩ := by
  simp [thinkpad_ec_request_row, h, busyEc, TPC_STR3_PORT, TPC_TWR15_PORT,
    H8S_STR3_MASK, H8S_STR3_OBF3B, H8S_STR3_SWMF, EBUSY]
  decide

theorem requestLoop_busyEc (args : thinkpad_ec_row)
    (h : args.mask &&& 0x0001 = 1) :
    ∀ (n : Nat) (u : Unit), requestLoop busyEc args n u =
      ⟨-EBUSY, (),
        (List.replicate n
          [Event.readReg TPC_STR3_PORT H8S_STR3_SWMF,
           Event.delay TPC_READ_NDELAY]).flatten⟩ := by
  intro n
  induction n with
  | zero => intro u; rfl
  | succ n ih =>
    intro u
    rw [requestLoop_succ]
    simp only [request_row_busyEc args h, ih ()]
    norm_num [EBUSY, List.replicate_succ, List.flatten_cons]

/-- C7: against an EC whose status register reports the busy pattern
(SWMF) on every poll, `thinkpad_ec_read_row` performs exactly
`TPC_READ_RETRIES` request attempts — the access trace is precisely that
many status reads, each followed by the configured `TPC_READ_NDELAY`
delay — and then returns the transient-busy error `-EBUSY`. -/
theorem read_row_busy_ec_retry_bound (args data : thinkpad_ec_row)
    (s : EcState Unit) (hm : args.mask &&& 0x0001 = 1)
    (hf : thinkpad_ec_is_row_fetched args s = false) :
    (thinkpad_ec_read_row busyEc args data s).ret = -EBUSY ∧
    (thinkpad_ec_read_row busyEc args data s).state.trace =
      s.trace ++ (List.replicate TPC_READ_RETRIES
        [Event.readReg TPC_STR3_PORT H8S_STR3_SWMF,
         Event.delay TPC_READ_NDELAY]).flatten := by
  have hloop := requestLoop_busyEc args hm TPC_READ_RETRIES s.ec
  constructor <;> norm_num [thinkpad_ec_read_row, hf, hloop, EBUSY]

/-- C7 witness: the busy-retry bound evaluated on the concrete minimal
request row from the junk-prefetch state. -/
theorem read_row_busy_ec_retry_bound_witness :
    (rowMin.mask &&& 0x0001 = 1) ∧
    thinkpad_ec_is_row_fetched rowMin stJunk = false ∧
    ((thinkpad_ec_read_row busyEc rowMin dataRow stJunk).ret = -EBUSY ∧
     (thinkpad_ec_read_row busyEc rowMin dataRow stJunk).state.trace =
       stJunk.trace ++ (List.replicate TPC_READ_RETRIES
         [Event.readReg TPC_STR3_PORT H8S_STR3_SWMF,
          Event.delay TPC_READ_NDELAY]).flatten) :=
  ⟨by decide, by decide,
    read_row_busy_ec_retry_bound rowMin dataRow stJunk (by decide) (by decide)⟩

theorem noInterleave_blocks (a b : Nat) (x y : Bool) :
    NoInterleave (List.replicate a x ++ List.replicate b y) := by
  intro c hsub
  rw [List.sublist_append_iff] at hsub
  obtain ⟨l1, l2, heq, h1, h2⟩ := hsub
  rw [List.sublist_replicate_iff] at h1 h2
  obtain ⟨k1, hk1, rfl⟩ := h1
  obtain ⟨k2, hk2, rfl⟩ := h2
  have hlen : k1 + k2 = 3 := by
    have hl := congrArg List.length heq
    simpa using hl.symm
  have hk13 : k1 ≤ 3 := by omega
  have hk23 : k2 ≤ 3 := by omega
  clear hk1 hk2
  interval_cases k1 <;> interval_cases k2 <;> simp_all [List.replicate_succ] <;>
    (obtain ⟨rfl, hB, hC⟩ := heq
     first
       | exact absurd hB.symm (Bool.not_ne_self _)
       | (subst hC; exact absurd hB.symm (Bool.not_ne_self _)))

theorem gateStep_inv {m n : Nat} {s t : GateState} (hs : GateInv m n s)
    (hstep : GateStep m n s t) : GateInv m n t := by
  obtain ⟨a1, a2, b1, b2, c, d1, d2⟩ := hs
  cases hstep with
  | acquire1 hl h1 =>
    have hd1 : s.did1 = 0 := a1 h1
    have hs2 : s.st2 ≠ 1 := by
      intro h2'
      have hb := b2 h2'
      rw [hl] at hb
      exact Option.noConfusion hb
    refine ⟨fun h => by simp at h, a2, fun _ => rfl,
      fun h2' => absurd h2' hs2, c, fun _ => ⟨rfl, ?_⟩, fun hf => by simp at hf⟩
    rcases c with hc | hc <;> simp [hc, hd1]
  | acquire2 hl h2 =>
    have hd2 : s.did2 = 0 := a2 h2
    have hs1 : s.st1 ≠ 1 := by
      intro h1'
      have hb := b1 h1'
      rw [hl] at hb
      exact Option.noConfusion hb
    refine ⟨a1, fun h => by simp at h, fun h1' => absurd h1' hs1,
      fun _ => rfl, c, fun hf => by simp at hf, fun _ => ⟨rfl, ?_⟩⟩
    rcases c with hc | hc <;> simp [hc, hd2]
  | access1 hl h1 hlt =>
    obtain ⟨-, htr⟩ := d1 hl
    have hs2 : s.st2 ≠ 1 := by
      intro h2'
      have hb := b2 h2'
      rw [hl] at hb
      simp at hb
    have hblock : s.trace ++ [true] =
        List.replicate s.did2 false ++ List.replicate (s.did1 + 1) true := by
      rw [htr, List.replicate_succ', ← List.append_assoc]
    refine ⟨fun h => absurd (h1.symm.trans h) (by decide), a2, fun _ => hl,
      fun h2' => absurd h2' hs2, Or.inr hblock, fun _ => ⟨h1, hblock⟩,
      fun hf => ?_⟩
    rw [hl] at hf
    simp at hf
  | access2 hl h2 hlt =>
    obtain ⟨-, htr⟩ := d2 hl
    have hs1 : s.st1 ≠ 1 := by
      intro h1'
      have hb := b1 h1'
      rw [hl] at hb
      simp at hb
    have hblock : s.trace ++ [false] =
        List.replicate s.did1 true ++ List.replicate (s.did2 + 1) false := by
      rw [htr, List.replicate_succ', ← List.append_assoc]
    refine ⟨a1, fun h => absurd (h2.symm.trans h) (by decide),
      fun h1' => absurd h1' hs1, fun _ => hl, Or.inl hblock, fun hf => ?_,
      fun _ => ⟨h2, hblock⟩⟩
    rw [hl] at hf
    simp at hf
  | release1 hl h1 hd =>
    have hs2 : s.st2 ≠ 1 := by
      intro h2'
      have hb := b2 h2'
      rw [hl] at hb
      simp at hb
    exact ⟨fun h => by simp at h, a2, fun h => by simp at h,
      fun h2' => absurd h2' hs2, c, fun hf => by simp at hf,
      fun hf => by simp at hf⟩
  | release2 hl h2 hd =>
    have hs1 : s.st1 ≠ 1 := by
      intro h1'
      have hb := b1 h1'
      rw [hl] at hb
      simp at hb
    exact ⟨a1, fun h => by simp at h, fun h1' => absurd h1' hs1,
      fun h => by simp at h, c, fun hf => by simp at hf,
      fun hf => by simp at hf⟩

theorem gateReachable_inv {m n : Nat} {s : GateState}
    (h : GateReachable m n s) : GateInv m n s := by
  induction h with
  | init =>
    refine ⟨fun _ => rfl, fun _ => rfl, ?_, ?_, Or.inl rfl, ?_, ?_⟩ <;>
      intro h <;> simp [initGate] at h
  | step hr hstep ih => exact gateStep_inv ih hstep

/-- C8: under the Exclusion Gate discipline (acquire before any register
access, release after all of them), two overlapping callers never
interleave their register accesses: in every reachable state of the
two-caller system the access log is interleaving-free — all accesses of
one logical operation complete before any access of the other begins. -/
theorem gate_serializes_register_accesses (m n : Nat) (s : GateState)
    (h : GateReachable m n s) : NoInterleave s.trace := by
  obtain ⟨-, -, -, -, c, -, -⟩ := gateReachable_inv h
  rcases c with hc | hc <;> rw [hc] <;> exact noInterleave_blocks _ _ _ _

/-- C8 witness: a concrete reachable execution — thread `true` acquires,
accesses once and releases, then thread `false` acquires and accesses —
whose access log `[true, false]` is interleaving-free. -/
theorem gate_serializes_register_accesses_witness : NoInterleave [true, false] := by
  have h0 : GateReachable 1 1 initGate := GateReachable.init
  have h1 := GateReachable.step h0 (GateStep.acquire1 initGate rfl rfl)
  have h2 := GateReachable.step h1 (GateStep.access1 _ rfl rfl (by decide))
  have h3 := GateReachable.step h2 (GateStep.release1 _ rfl rfl rfl)
  have h4 := GateReachable.step h3 (GateStep.acquire2 _ rfl rfl)
  have h5 := GateReachable.step h4 (GateStep.access2 _ rfl rfl (by decide))
  exact gate_serializes_register_accesses 1 1 _ h5

end ThinkpadEc
